import Mathlib

/-!
Formal model of the spatial-annotation core of `labelpc` (`src/labelpc/app.py`).

Pixel coordinates are canvas (QPointF) coordinates; world coordinates are
point-cloud coordinates.  Machine floats are modelled as exact rationals
(reals where trigonometry is involved).  The conversion context gathers the
ambient state the methods read: `self.scale` (voxel cell size), `self.offset`
(voxel-grid minimum corner) and `self.canvas.pixmap.height()`.
-/

namespace LabelPC

/-- Ambient conversion state read by `qpointToPointcloud` / `pointcloudToQpoint`:
`scale` is `self.scale`, `(offx, offy)` is `self.offset`, and `height` is
`self.canvas.pixmap.height()`. -/
structure Ctx (K : Type) where
  scale : K
  offx : K
  offy : K
  height : K
deriving DecidableEq

/-- Source `app.py` lines 1737-1739:
`return (p.x() * self.scale + self.offset.x(), (self.canvas.pixmap.height() - p.y()) * self.scale + self.offset.y())`. -/
def qpointToPointcloud {K : Type} [Field K] (ctx : Ctx K) (p : K × K) : K × K :=
  (p.1 * ctx.scale + ctx.offx, (ctx.height - p.2) * ctx.scale + ctx.offy)

/-- Source `app.py` lines 1741-1744:
`x = (p[0] - self.offset.x()) / self.scale;`
`y = self.canvas.pixmap.height() - ((p[1] - self.offset.y()) / self.scale)`. -/
def pointcloudToQpoint {K : Type} [Field K] (ctx : Ctx K) (w : K × K) : K × K :=
  ((w.1 - ctx.offx) / ctx.scale, ctx.height - (w.2 - ctx.offy) / ctx.scale)

/-- An annotation shape as the canvas/label list stores it: a label string, an
ordered list of vertices in pixel coordinates (QPointF), and whether the
corresponding label-list item is currently selected. -/
structure Shape where
  label : String
  points : List (ℚ × ℚ)
  selected : Bool
deriving DecidableEq

/-- Tests whether `as` comes first in `bs` (character lists). -/
def startsWithL : List Char → List Char → Bool
  | [], _ => true
  | _ :: _, [] => false
  | a :: as, b :: bs => a == b && startsWithL as bs

/-- Tests whether `needle` occurs as a contiguous run inside the second list. -/
def hasSubL (needle : List Char) : List Char → Bool
  | [] => startsWithL needle []
  | c :: rest => startsWithL needle (c :: rest) || hasSubL needle rest

/-- Python's `'rack' in label` substring test. -/
def hasRack (label : String) : Bool :=
  hasSubL "rack".toList label.toList

/-- A 2-point axis-aligned box in world coordinates, as the `np.array`
`[[x0, y0], [x1, y1]]` used by the rack routines. -/
abbrev Box : Type := (ℚ × ℚ) × (ℚ × ℚ)

/-- Source `app.py` lines 1676-1678 (`isTwoRacks`):
`dims = np.abs(bounds[1] - bounds[0]);`
`return (dims / 1.9 > self._config[type]).all()`
with `c = self._config[type]` the canonical rack size for the kind. -/
def isTwoRacks (c : ℚ) (bounds : Box) : Bool :=
  decide (|bounds.2.1 - bounds.1.1| / 1.9 > c) &&
    decide (|bounds.2.2 - bounds.1.2| / 1.9 > c)

/-- Source `app.py` lines 1680-1689 (`splitTwoRacks`): cuts `bounds` at the midpoint
of the axis whose span is nearest `2 * c`, pulling the first box's far corner
to `mid - 0.05` and pushing the copy's near corner to `mid + 0.05`; the copy
`bounds2` is taken before `bounds` is mutated, so both midpoints use the
original coordinates. -/
def splitTwoRacks (c : ℚ) (bounds : Box) : Box × Box :=
  if |(|bounds.2.1 - bounds.1.1|) - c * 2| < |(|bounds.2.2 - bounds.1.2|) - c * 2| then
    ((bounds.1, ((bounds.1.1 + bounds.2.1) / 2 - 0.05, bounds.2.2)),
     (((bounds.1.1 + bounds.2.1) / 2 + 0.05, bounds.1.2), bounds.2))
  else
    ((bounds.1, (bounds.2.1, (bounds.1.2 + bounds.2.2) / 2 - 0.05)),
     ((bounds.1.1, (bounds.1.2 + bounds.2.2) / 2 + 0.05), bounds.2))

/-- Source `app.py` lines 1487-1496 (`updatePixmap`), restricted to its effect on
`self.sliceIdx`: with `n = len(self.imageData)`, an empty image list returns
early; otherwise an index at or past `n` is reset to 0, then a negative index
is reset to `n - 1`. -/
def updatePixmapIdx (n : ℕ) (idx : ℤ) : ℤ :=
  if n = 0 then idx
  else
    let i1 := if (n : ℤ) ≤ idx then 0 else idx
    if i1 < 0 then (n : ℤ) - 1 else i1

/-- Source `app.py` lines 1758-1760 (`showNextSlice`): increment then `updatePixmap`. -/
def showNextSlice (n : ℕ) (idx : ℤ) : ℤ :=
  updatePixmapIdx n (idx + 1)

/-- Source `app.py` lines 1762-1764 (`showLastSlice`): decrement then `updatePixmap`. -/
def showLastSlice (n : ℕ) (idx : ℤ) : ℤ :=
  updatePixmapIdx n (idx - 1)

/-- Modelled from the spec: labelme's `Shape.containsPoint` (its source is not
under `src/`; the spec describes `splitRack` as finding the rack "by
point-containment test").  For a 2-corner rectangle shape: the point lies in
the closed axis-aligned rectangle spanned by the two stored corners, in pixel
coordinates, whichever order the corners are stored in. -/
def containsPointRect (sh : Shape) (pos : ℚ × ℚ) : Bool :=
  let p0 := sh.points.getD 0 (0, 0)
  let p1 := sh.points.getD 1 (0, 0)
  decide (min p0.1 p1.1 ≤ pos.1) && decide (pos.1 ≤ max p0.1 p1.1) &&
    decide (min p0.2 p1.2 ≤ pos.2) && decide (pos.2 ≤ max p0.2 p1.2)

/-- Source `app.py` lines 1636-1644, the mutation core of `splitRack` once a rack is
at hand: `newRack = rack.copy()` is taken first; `dims` is the difference of
the two corners' world coordinates, and along the axis of larger `|dims|` the
rack's second corner is set to `pos - 0.2` and the copy's first corner to
`pos + 0.2` — `setX`/`setY` act on the canvas `QPointF`s, so the 0.2 offsets
are in pixel coordinates.  Returns the mutated rack and the new rack. -/
def splitRackCore (ctx : Ctx ℚ) (pos : ℚ × ℚ) (rack : Shape) : Shape × Shape :=
  let p0 := rack.points.getD 0 (0, 0)
  let p1 := rack.points.getD 1 (0, 0)
  let w0 := qpointToPointcloud ctx p0
  let w1 := qpointToPointcloud ctx p1
  if |w0.1 - w1.1| > |w0.2 - w1.2| then
    ({ rack with points := rack.points.set 1 (pos.1 - 0.2, p1.2) },
     { rack with points := rack.points.set 0 (pos.1 + 0.2, p0.2) })
  else
    ({ rack with points := rack.points.set 1 (p1.1, pos.2 - 0.2) },
     { rack with points := rack.points.set 0 (p0.1, pos.2 + 0.2) })

/-- Index of the first shape whose label contains 'rack' and which contains
`pos` (`app.py` lines 1630-1633). -/
def findRackIdx (pos : ℚ × ℚ) : List Shape → Option ℕ
  | [] => none
  | s :: rest =>
    if hasRack s.label && containsPointRect s pos then some 0
    else (findRackIdx pos rest).map (· + 1)

/-- Source `app.py` lines 1626-1647 (`splitRack`) with `pos` given and no explicit
rack: search the label list for the first containing rack; if none is found
return the list unchanged (silent no-op); otherwise replace that rack with its
shrunk half and append the new rack (`addLabel`). -/
def splitRack (ctx : Ctx ℚ) (pos : ℚ × ℚ) (shapes : List Shape) : List Shape :=
  match findRackIdx pos shapes with
  | none => shapes
  | some i =>
    match shapes.get? i with
    | none => shapes
    | some rack => (shapes.set i (splitRackCore ctx pos rack).1) ++
        [(splitRackCore ctx pos rack).2]

/-- Variant of `splitRack` with the rack passed explicitly (the path `splitRacks` takes):
no containment search; mutate the rack at index `r` and append the new rack. -/
def splitRackAt (ctx : Ctx ℚ) (pos : ℚ × ℚ) (r : ℕ) (shapes : List Shape) :
    List Shape :=
  match shapes.get? r with
  | none => shapes
  | some rack => (shapes.set r (splitRackCore ctx pos rack).1) ++
      [(splitRackCore ctx pos rack).2]

/-- Source `app.py` lines 1608-1624 (`unsplitRacks`): collect the currently selected
shapes whose label contains 'rack'; compute all their corners' world
coordinates and set the first collected rack's corners to the componentwise
`np.min` / `np.max`.  With zero collected racks, `np.min(points, axis=0)` is
an empty reduction and raises `ValueError` (and `racks[0]` would raise
`IndexError`), modelled as `Except.error`; nothing has been modified at that
point.  `removeItemWidget` only detaches an item's widget — it does not remove
the item or its shape from the list (the `Todo` comment in the source records
that shape deletion was unresolved) — so the remaining racks stay in place. -/
def unsplitRacks (ctx : Ctx ℚ) (shapes : List Shape) : Except String (List Shape) :=
  let rackIdxs := (List.range shapes.length).filter
    (fun i => match shapes.get? i with
      | some s => s.selected && hasRack s.label
      | none => false)
  let pts := rackIdxs.foldr
    (fun j acc => match shapes.get? j with
      | some s => qpointToPointcloud ctx (s.points.getD 0 (0, 0)) ::
          qpointToPointcloud ctx (s.points.getD 1 (0, 0)) :: acc
      | none => acc) []
  match rackIdxs, pts with
  | i :: _, p :: ps =>
    match shapes.get? i with
    | none => Except.error "list index out of range"
    | some r0 =>
      let mn := ps.foldl (fun a b => (min a.1 b.1, min a.2 b.2)) p
      let mx := ps.foldl (fun a b => (max a.1 b.1, max a.2 b.2)) p
      Except.ok (shapes.set i { r0 with points :=
        (r0.points.set 0 (pointcloudToQpoint ctx mn)).set 1 (pointcloudToQpoint ctx mx) })
  | _, _ => Except.error "zero-size array to reduction operation minimum"

/-- Abstract interface to the `PointCloud` collaborator (its class lives
outside `src/`; `app.py` only calls these methods).  The dispatch claims are
proved for every behaviour of these operations, so nothing about the
collaborator is assumed. -/
structure PCOps where
  snap_to_center : (ℚ × ℚ) → ℚ → ℚ × ℚ
  snap_to_corner : (ℚ × ℚ) → ℚ → ℚ × ℚ
  in_box_2d : Box → List Bool
  tighten_to_rack : Box → Box

/-- Source `app.py` lines 1587-1602 (`nearestCrosshairIntersection`, default
threshold 0.3): collect the world position of every existing shape labelled
exactly 'beam'; starting from the query's world position with
`intersected = False`, each beam whose x (resp. y) is within the threshold of
the query's original x (resp. y) overwrites that coordinate of the
intersection and sets the flag. -/
def nearestCrosshairIntersection (ctx : Ctx ℚ) (shapes : List Shape)
    (point : ℚ × ℚ) : (ℚ × ℚ) × Bool :=
  let beams := (shapes.filter (fun s => s.label = "beam")).map
    (fun s => qpointToPointcloud ctx (s.points.getD 0 (0, 0)))
  let pw := qpointToPointcloud ctx point
  beams.foldl
    (fun acc b =>
      let acc1 := if |b.1 - pw.1| < 0.3 then ((b.1, acc.1.2), true) else acc
      if |b.2 - pw.2| < 0.3 then ((acc1.1.1, b.2), true) else acc1)
    (pw, false)

/-- Source `app.py` lines 1297-1343 (`newShape`), the geometry-relevant dispatch once
a validated label exists (popup/undo/viewer wiring omitted): a 'beam' snaps
its sole point to the nearest crosshair intersection if one is within
threshold, else to `snap_to_center`; a 'pole' snaps to `snap_to_center`; a
'wall'/'walls' snaps every vertex to `snap_to_corner`; a label containing
'rack' converts its two corners to a world box, returns early (adding
nothing) when `in_box_2d` selects no point, else tightens, possibly splits in
two (adding the second box first, as `addLabel(shape2)` runs before
`addLabel(shape)`), and stores the tightened corners.  `addLabel` appends to
the label list `labels`. -/
def newShape (ctx : Ctx ℚ) (pc : PCOps) (c : ℚ) (existing : List Shape)
    (labels : List Shape) (shape : Shape) : List Shape :=
  let shape :=
    if shape.label = "beam" then
      let res := nearestCrosshairIntersection ctx existing (shape.points.getD 0 (0, 0))
      if res.2 then
        { shape with points := shape.points.set 0 (pointcloudToQpoint ctx res.1) }
      else
        { shape with points := shape.points.set 0 (pointcloudToQpoint ctx
            (pc.snap_to_center (qpointToPointcloud ctx (shape.points.getD 0 (0, 0))) 0.5)) }
    else shape
  if shape.label = "pole" then
    labels ++ [{ shape with points := shape.points.set 0 (pointcloudToQpoint ctx
      (pc.snap_to_center (qpointToPointcloud ctx (shape.points.getD 0 (0, 0))) 0.5)) }]
  else if shape.label = "wall" ∨ shape.label = "walls" then
    labels ++ [{ shape with points := shape.points.map (fun p =>
      pointcloudToQpoint ctx (pc.snap_to_corner (qpointToPointcloud ctx p) 0.5)) }]
  else if hasRack shape.label then
    let box : Box := (qpointToPointcloud ctx (shape.points.getD 0 (0, 0)),
      qpointToPointcloud ctx (shape.points.getD 1 (0, 0)))
    let inbox := pc.in_box_2d box
    if inbox.count true = 0 then labels
    else
      let box := pc.tighten_to_rack box
      if isTwoRacks c box then
        let bb := splitTwoRacks c box
        let b1 := pc.tighten_to_rack bb.1
        let b2 := pc.tighten_to_rack bb.2
        let shape2 := { shape with points :=
          (shape.points.set 0 (pointcloudToQpoint ctx b2.1)).set 1 (pointcloudToQpoint ctx b2.2) }
        let shape1 := { shape with points :=
          (shape.points.set 0 (pointcloudToQpoint ctx b1.1)).set 1 (pointcloudToQpoint ctx b1.2) }
        labels ++ [shape2, shape1]
      else
        labels ++ [{ shape with points :=
          (shape.points.set 0 (pointcloudToQpoint ctx box.1)).set 1 (pointcloudToQpoint ctx box.2) }]
  else labels ++ [shape]

/-- Source `app.py` lines 1663-1674, the inner-loop body of `splitRacks` for one
candidate shape index `j` against the rack at index `r`:  if shape `j` is a
'beam' whose x lies strictly inside the rack's x-span and whose y is within
`ydim/2 + 2.0` of the rack's y-centerline (`xdim`/`ydim`/`xc`/`yc` are the
snapshot taken when the outer iteration started; the span test reads the rack
live), the beam's own stored point is overwritten (`pos = shape.points[0];`
`pos.setY(y_c)` mutates the shared `QPointF`) and `splitRack(pos, rack)` runs;
symmetrically for the y-span/x-centerline case.  Anything else is left
untouched. -/
def beamStep (ctx : Ctx ℚ) (r : ℕ) (xdim ydim xc yc : ℚ) (shapes : List Shape)
    (j : ℕ) : List Shape :=
  match shapes.get? j, shapes.get? r with
  | some sh, some rack =>
    if sh.label = "beam" then
      let bp := sh.points.getD 0 (0, 0)
      let r0 := rack.points.getD 0 (0, 0)
      let r1 := rack.points.getD 1 (0, 0)
      if r0.1 < bp.1 ∧ bp.1 < r1.1 then
        if |yc - bp.2| < ydim / 2 + 2 then
          splitRackAt ctx (bp.1, yc) r
            (shapes.set j { sh with points := sh.points.set 0 (bp.1, yc) })
        else shapes
      else if r0.2 < bp.2 ∧ bp.2 < r1.2 then
        if |xc - bp.1| < xdim / 2 + 2 then
          splitRackAt ctx (xc, bp.2) r
            (shapes.set j { sh with points := sh.points.set 0 (xc, bp.2) })
        else shapes
      else shapes
    else shapes
  | _, _ => shapes

/-- The inner `for _, shape in self.labelList.itemsToShapes` loop of
`splitRacks`, over the indices present when the iteration starts.  Shapes
appended while it runs are the new racks produced by `splitRack`; their labels
contain 'rack', so the Python iterator visiting them is a no-op (`shape.label
== 'beam'` fails), and iterating the entry indices is faithful. -/
def innerLoop (ctx : Ctx ℚ) (r : ℕ) (xdim ydim xc yc : ℚ) :
    List ℕ → List Shape → List Shape
  | [], shapes => shapes
  | j :: js, shapes =>
    innerLoop ctx r xdim ydim xc yc js (beamStep ctx r xdim ydim xc yc shapes j)

/-- The outer `for rack in racks` loop of `splitRacks` (lines 1660-1674):
for each snapshot rack index, read the rack's current corners, take the
dimension/centerline snapshot, and run the inner loop over the current list's
indices.  Racks are identified by index: the list only ever grows at the end,
so the snapshot references stay at their indices. -/
def outerLoop (ctx : Ctx ℚ) : List ℕ → List Shape → List Shape
  | [], shapes => shapes
  | r :: rs, shapes =>
    match shapes.get? r with
    | none => outerLoop ctx rs shapes
    | some rack =>
      let p0 := rack.points.getD 0 (0, 0)
      let p1 := rack.points.getD 1 (0, 0)
      outerLoop ctx rs (innerLoop ctx r (|p0.1 - p1.1|) (|p0.2 - p1.2|)
        ((p0.1 + p1.1) / 2) ((p0.2 + p1.2) / 2)
        (List.range shapes.length) shapes)

/-- Source `app.py` lines 1649-1674 (`splitRacks`): the candidate racks are the
selected shapes (when `selected`) or all shapes whose label contains 'rack',
collected before the loop starts. -/
def splitRacks (ctx : Ctx ℚ) (selected : Bool) (shapes : List Shape) :
    List Shape :=
  let rackIdxs := (List.range shapes.length).filter
    (fun i => match shapes.get? i with
      | some s => (if selected then s.selected else true) && hasRack s.label
      | none => false)
  outerLoop ctx rackIdxs shapes

/-- Source `app.py` line 1722: `theta = np.radians(angle)`. -/
noncomputable def radiansOf (angle : ℝ) : ℝ :=
  angle * Real.pi / 180

/-- Source `app.py` lines 1721-1729 (`rotateShapes`), the world-coordinate action on
one vertex: `c, s = np.cos(theta), np.sin(theta)`,
`rot = np.array(((c, -s), (s, c)))` and `trans = np.dot(trans, rot)`.
`np.dot` of a length-2 vector with a 2x2 matrix multiplies the ROW vector on
the LEFT of the matrix: component `j` of the result is
`trans[0] * rot[0][j] + trans[1] * rot[1][j]`. -/
noncomputable def rotateShapesWorld (angle : ℝ) (w : ℝ × ℝ) : ℝ × ℝ :=
  let c := Real.cos (radiansOf angle)
  let s := Real.sin (radiansOf angle)
  let rot := ((c, -s), (s, c))
  (w.1 * rot.1.1 + w.2 * rot.2.1, w.1 * rot.1.2 + w.2 * rot.2.2)

/-- Source `app.py` lines 1725-1729: each canvas vertex is converted to world
coordinates (`qpointToPointcloud`), rotated, and converted back
(`pointcloudToQpoint`). -/
noncomputable def rotateShapesPoint (ctx : Ctx ℝ) (angle : ℝ) (p : ℝ × ℝ) : ℝ × ℝ :=
  pointcloudToQpoint ctx (rotateShapesWorld angle (qpointToPointcloud ctx p))

/-- Written from the spec's words, for comparison with the code: the standard
counter-clockwise-positive rotation about the origin by `radians(angle)`,
`(x, y) ↦ (x cos θ - y sin θ, x sin θ + y cos θ)`. -/
noncomputable def specCcwRotation (angle : ℝ) (w : ℝ × ℝ) : ℝ × ℝ :=
  (w.1 * Real.cos (radiansOf angle) - w.2 * Real.sin (radiansOf angle),
   w.1 * Real.sin (radiansOf angle) + w.2 * Real.cos (radiansOf angle))

/-- Shared helper: the world → pixel → world round trip is the identity
whenever the scale is nonzero. -/
theorem world_roundtrip {K : Type} [Field K] (ctx : Ctx K) (h : ctx.scale ≠ 0)
    (w : K × K) : qpointToPointcloud ctx (pointcloudToQpoint ctx w) = w := by
  unfold qpointToPointcloud pointcloudToQpoint
  refine Prod.ext ?_ ?_ <;> field_simp

end LabelPC

namespace LabelPC

/-- C1: for every world point `p` and every fixed offset and nonzero cell size,
converting `p` to pixel coordinates with `pointcloudToQpoint` and back with
`qpointToPointcloud` returns `p` exactly (hence within any tolerance,
in particular 1e-6 world units). -/
theorem claim1_pixel_world_roundtrip (ctx : Ctx ℚ) (h : ctx.scale ≠ 0)
    (p : ℚ × ℚ) : qpointToPointcloud ctx (pointcloudToQpoint ctx p) = p :=
  world_roundtrip ctx h p

/-- Witness for C1 at scale 2, offset (3, 5), raster height 100, point (7, 11). -/
theorem claim1_pixel_world_roundtrip_witness :
    (Ctx.mk (K := ℚ) 2 3 5 100).scale ≠ 0 ∧
      qpointToPointcloud (Ctx.mk (K := ℚ) 2 3 5 100)
        (pointcloudToQpoint (Ctx.mk (K := ℚ) 2 3 5 100) (7, 11)) = (7, 11) :=
  ⟨by decide, claim1_pixel_world_roundtrip (Ctx.mk 2 3 5 100) (by decide) (7, 11)⟩

/-- Shared helper: when no shape both carries a rack label and contains `pos`,
the rack search comes back empty. -/
theorem findRackIdx_eq_none (pos : ℚ × ℚ) (shapes : List Shape)
    (h : ∀ s ∈ shapes, ¬(hasRack s.label = true ∧ containsPointRect s pos = true)) :
    findRackIdx pos shapes = none := by
  induction shapes with
  | nil => rfl
  | cons s rest ih =>
    have hcond : (hasRack s.label && containsPointRect s pos) = false := by
      cases hb : hasRack s.label with
      | false => simp
      | true =>
        cases hc : containsPointRect s pos with
        | false => simp
        | true => exact absurd ⟨hb, hc⟩ (h s (List.mem_cons_self s rest))
    simp [findRackIdx, hcond, ih fun s' hs' => h s' (List.mem_cons_of_mem s hs')]

/-- C2 counterexample: a selection holding one selected beam and no rack.  The
claim says `unsplitRacks` is a no-op that raises no error, i.e. it would
succeed leaving the list unchanged; instead the empty `np.min` reduction
raises, modelled as `Except.error`. -/
theorem claim2_counterexample :
    unsplitRacks (Ctx.mk 1 0 0 100) [Shape.mk "beam" [(1, 2)] true] ≠
      Except.ok [Shape.mk "beam" [(1, 2)] true] := by
  intro hcontra
  rw [show unsplitRacks (Ctx.mk 1 0 0 100) [Shape.mk "beam" [(1, 2)] true] =
      Except.error "zero-size array to reduction operation minimum" from rfl] at hcontra
  exact Except.noConfusion hcontra

/-- C2 amended: when the current selection contains zero rack annotations,
`unsplitRacks` raises an error (`np.min` over an empty list of corners — and
`racks[0]` would be an out-of-range index) instead of silently doing nothing;
no shape has been modified or removed when the error is raised. -/
theorem claim2_unsplitRacks_empty_errors (ctx : Ctx ℚ) (shapes : List Shape)
    (h : ∀ s ∈ shapes, ¬(s.selected = true ∧ hasRack s.label = true)) :
    ∃ msg, unsplitRacks ctx shapes = Except.error msg := by
  have hf : (List.range shapes.length).filter
      (fun i => match shapes.get? i with
        | some s => s.selected && hasRack s.label
        | none => false) = [] := by
    rw [List.filter_eq_nil]
    intro i hi
    have hlt : i < shapes.length := List.mem_range.mp hi
    rw [List.get?_eq_get hlt]
    intro hcond
    exact h _ (List.get_mem shapes i hlt) (by simpa using hcond)
  refine ⟨"zero-size array to reduction operation minimum", ?_⟩
  unfold unsplitRacks
  rw [hf]

/-- Witness for C2 amended: one selected beam, no rack. -/
theorem claim2_unsplitRacks_empty_errors_witness :
    (∀ s ∈ [Shape.mk "beam" [(1, 2)] true], ¬(s.selected = true ∧ hasRack s.label = true)) ∧
      ∃ msg, unsplitRacks (Ctx.mk 1 0 0 100) [Shape.mk "beam" [(1, 2)] true] =
        Except.error msg :=
  ⟨by decide, claim2_unsplitRacks_empty_errors (Ctx.mk 1 0 0 100) _ (by decide)⟩

/-- C3 counterexample: with cell size (scale) 2 and offset (0,0), the pixel
rectangle (0,100)-(5,97.5) is exactly the world rack (0,0)-(10,5) of the
claim's example, and the pixel point (2.5, 98.75) is the world position
(5, 2.5).  `splitRack` there produces racks whose world x-extents are
[0, 4.6] and [5.4, 10]: a total gap of 0.8 world units, not the claimed 0.4
(the 0.2 offsets are applied to pixel coordinates, so the world gap scales
with the cell size). -/
theorem claim3_counterexample :
    pointcloudToQpoint (Ctx.mk (K := ℚ) 2 0 0 100) (0, 0) = (0, 100) ∧
      pointcloudToQpoint (Ctx.mk (K := ℚ) 2 0 0 100) (10, 5) = (5, 97.5) ∧
      pointcloudToQpoint (Ctx.mk (K := ℚ) 2 0 0 100) (5, 2.5) = (2.5, 98.75) ∧
      splitRack (Ctx.mk 2 0 0 100) (2.5, 98.75)
          [Shape.mk "rack" [(0, 100), (5, 97.5)] false] =
        [Shape.mk "rack" [(0, 100), (2.3, 97.5)] false,
         Shape.mk "rack" [(2.7, 100), (5, 97.5)] false] ∧
      qpointToPointcloud (Ctx.mk (K := ℚ) 2 0 0 100) (2.3, 97.5) = (4.6, 5) ∧
      qpointToPointcloud (Ctx.mk (K := ℚ) 2 0 0 100) (2.7, 100) = (5.4, 0) ∧
      ¬((5.4 : ℚ) - 4.6 = 0.4) := by
  have hr : hasRack "rack" = true := by rfl
  have hc : containsPointRect (Shape.mk "rack" [(0, 100), (5, 97.5)] false)
      (2.5, 98.75) = true := by
    norm_num [containsPointRect, min_def, max_def]
  have hfind : findRackIdx (2.5, 98.75)
      [Shape.mk "rack" [(0, 100), (5, 97.5)] false] = some 0 := by
    simp [findRackIdx, hr, hc]
  refine ⟨by norm_num [pointcloudToQpoint], by norm_num [pointcloudToQpoint],
    by norm_num [pointcloudToQpoint], ?_, by norm_num [qpointToPointcloud],
    by norm_num [qpointToPointcloud], by norm_num⟩
  simp only [splitRack, hfind, List.get?]
  norm_num [splitRackCore, qpointToPointcloud, abs_eq_max_neg, max_def,
    List.getD_cons_zero, List.getD_cons_succ, List.set_cons_zero,
    List.set_cons_succ]

/-- C3 amended: `splitRack(p, R)` cuts `R` along its long axis (the axis of
greater world extent) at `p`, but the 0.2 offsets on each side of the cut are
applied to pixel coordinates (`setX`/`setY` on canvas points), so the total
gap is 0.4 pixel units, i.e. `0.4 × scale` world units — 0.4 world units only
when the cell size is 1, which is the setting of the spec's
(0,0)-(10,5) example.  If no rack contains `p` and none is given, `splitRack`
is a no-op and raises no error. -/
theorem claim3_splitRack_gap (ctx : Ctx ℚ) (pos p0 p1 : ℚ × ℚ) (lbl : String)
    (sel : Bool) (shapes : List Shape) :
    ((|(qpointToPointcloud ctx p0).1 - (qpointToPointcloud ctx p1).1| >
        |(qpointToPointcloud ctx p0).2 - (qpointToPointcloud ctx p1).2|) →
      splitRackCore ctx pos (Shape.mk lbl [p0, p1] sel) =
        (Shape.mk lbl [p0, (pos.1 - 0.2, p1.2)] sel,
         Shape.mk lbl [(pos.1 + 0.2, p0.2), p1] sel) ∧
      (qpointToPointcloud ctx (pos.1 + 0.2, p0.2)).1 -
          (qpointToPointcloud ctx (pos.1 - 0.2, p1.2)).1 = 0.4 * ctx.scale) ∧
    ((|(qpointToPointcloud ctx p0).1 - (qpointToPointcloud ctx p1).1| ≤
        |(qpointToPointcloud ctx p0).2 - (qpointToPointcloud ctx p1).2|) →
      splitRackCore ctx pos (Shape.mk lbl [p0, p1] sel) =
        (Shape.mk lbl [p0, (p1.1, pos.2 - 0.2)] sel,
         Shape.mk lbl [(p0.1, pos.2 + 0.2), p1] sel) ∧
      (qpointToPointcloud ctx (p1.1, pos.2 - 0.2)).2 -
          (qpointToPointcloud ctx (p0.1, pos.2 + 0.2)).2 = 0.4 * ctx.scale) ∧
    ((∀ s ∈ shapes, ¬(hasRack s.label = true ∧ containsPointRect s pos = true)) →
      splitRack ctx pos shapes = shapes) := by
  refine ⟨fun h => ⟨?_, ?_⟩, fun h => ⟨?_, ?_⟩, fun h => ?_⟩
  · simp only [splitRackCore, List.getD_cons_zero, List.getD_cons_succ,
      List.set_cons_zero, List.set_cons_succ]
    rw [if_pos h]
  · unfold qpointToPointcloud
    dsimp only
    ring
  · simp only [splitRackCore, List.getD_cons_zero, List.getD_cons_succ,
      List.set_cons_zero, List.set_cons_succ]
    rw [if_neg (not_lt.mpr h)]
  · unfold qpointToPointcloud
    dsimp only
    ring
  · simp [splitRack, findRackIdx_eq_none pos shapes h]

/-- Witness for C3 amended at cell size 1, reproducing the spec's example:
world rack (0,0)-(10,5) is the pixel rectangle (0,100)-(10,95), the world
position (5,2.5) is the pixel point (5,97.5), and the cut yields corners at
pixel x 4.8 and 5.2, i.e. world x-extents [0,4.8] and [5.2,10]. -/
theorem claim3_splitRack_gap_witness :
    (|(qpointToPointcloud (Ctx.mk (K := ℚ) 1 0 0 100) (0, 100)).1 -
        (qpointToPointcloud (Ctx.mk (K := ℚ) 1 0 0 100) (10, 95)).1| >
      |(qpointToPointcloud (Ctx.mk (K := ℚ) 1 0 0 100) (0, 100)).2 -
        (qpointToPointcloud (Ctx.mk (K := ℚ) 1 0 0 100) (10, 95)).2|) ∧
      splitRackCore (Ctx.mk 1 0 0 100) (5, 97.5)
          (Shape.mk "rack" [(0, 100), (10, 95)] false) =
        (Shape.mk "rack" [(0, 100), (4.8, 95)] false,
         Shape.mk "rack" [(5.2, 100), (10, 95)] false) ∧
      splitRack (Ctx.mk 1 0 0 100) (5, 97.5) [] = [] := by
  have hlong : (|(qpointToPointcloud (Ctx.mk (K := ℚ) 1 0 0 100) (0, 100)).1 -
      (qpointToPointcloud (Ctx.mk (K := ℚ) 1 0 0 100) (10, 95)).1| >
      |(qpointToPointcloud (Ctx.mk (K := ℚ) 1 0 0 100) (0, 100)).2 -
        (qpointToPointcloud (Ctx.mk (K := ℚ) 1 0 0 100) (10, 95)).2|) := by
    norm_num [qpointToPointcloud]
  have hmain := (claim3_splitRack_gap (Ctx.mk 1 0 0 100) (5, 97.5) (0, 100)
    (10, 95) "rack" false []).1 hlong
  refine ⟨hlong, ?_, ((claim3_splitRack_gap (Ctx.mk 1 0 0 100) (5, 97.5) (0, 100)
    (10, 95) "rack" false []).2.2 (by simp))⟩
  rw [hmain.1]
  norm_num

/-- C4: `isTwoRacks kind box` is true iff the box's span exceeds 1.9 times the
canonical rack size `c` for that kind on both axes; in particular a box
exceeding the threshold on only one axis yields false. -/
theorem claim4_isTwoRacks_iff (c : ℚ) (bounds : Box) :
    isTwoRacks c bounds = true ↔
      (|bounds.2.1 - bounds.1.1| > 1.9 * c ∧ |bounds.2.2 - bounds.1.2| > 1.9 * c) := by
  simp only [isTwoRacks, Bool.and_eq_true, decide_eq_true_eq, gt_iff_lt,
    lt_div_iff₀ (by norm_num : (0 : ℚ) < 1.9)]
  constructor <;> rintro ⟨h1, h2⟩ <;> exact ⟨by linarith, by linarith⟩

/-- C5: `splitTwoRacks` cuts the input at its midpoint along the axis whose
span is closest to exactly twice the canonical size `c` (the axis minimizing
`|span - 2 * c|`; on a tie the y axis, which still minimizes), with the first
box ending at `mid - 0.05` and the second beginning at `mid + 0.05` on that
axis, and the extents on the other axis equal to the input's. -/
theorem claim5_splitTwoRacks_cut (c : ℚ) (b : Box) :
    ((|(|b.2.1 - b.1.1|) - 2 * c| < |(|b.2.2 - b.1.2|) - 2 * c|) →
      splitTwoRacks c b =
        ((b.1, ((b.1.1 + b.2.1) / 2 - 0.05, b.2.2)),
         (((b.1.1 + b.2.1) / 2 + 0.05, b.1.2), b.2))) ∧
    ((|(|b.2.2 - b.1.2|) - 2 * c| ≤ |(|b.2.1 - b.1.1|) - 2 * c|) →
      splitTwoRacks c b =
        ((b.1, (b.2.1, (b.1.2 + b.2.2) / 2 - 0.05)),
         ((b.1.1, (b.1.2 + b.2.2) / 2 + 0.05), b.2))) := by
  constructor <;> intro h <;> unfold splitTwoRacks
  · rw [if_pos (by linarith [abs_nonneg (|b.2.1 - b.1.1| - c * 2),
      (by ring_nf : |(|b.2.1 - b.1.1|) - c * 2| = |(|b.2.1 - b.1.1|) - 2 * c|),
      (by ring_nf : |(|b.2.2 - b.1.2|) - c * 2| = |(|b.2.2 - b.1.2|) - 2 * c|)])]
  · rw [if_neg (not_lt.mpr (by linarith [
      (by ring_nf : |(|b.2.1 - b.1.1|) - c * 2| = |(|b.2.1 - b.1.1|) - 2 * c|),
      (by ring_nf : |(|b.2.2 - b.1.2|) - c * 2| = |(|b.2.2 - b.1.2|) - 2 * c|)]))]

/-- Witness for C5: canonical size 5; box (0,0)-(9,30) is cut along x
(9 is nearer 10 than 30 is); box (0,0)-(21,3) is cut along y
(3 is nearer 10 than 21 is). -/
theorem claim5_splitTwoRacks_cut_witness :
    splitTwoRacks 5 ((0, 0), (9, 30)) = (((0, 0), (4.45, 30)), ((4.55, 0), (9, 30))) ∧
      splitTwoRacks 5 ((0, 0), (21, 3)) = (((0, 0), (21, 1.45)), ((0, 1.55), (21, 3))) := by
  constructor
  · rw [(claim5_splitTwoRacks_cut 5 ((0, 0), (9, 30))).1 (by norm_num)]; norm_num
  · rw [(claim5_splitTwoRacks_cut 5 ((0, 0), (21, 3))).2 (by norm_num)]; norm_num

/-- C6 counterexample: at cell size 1, offset (0,0), raster height 0, the
pixel vertex (1,0) has world coordinates (1,0).  With `angle = 90`,
`rotateShapes` maps its world coordinates to (0,-1), whereas the claimed map
`(x cos θ - y sin θ, x sin θ + y cos θ)` gives (0,1): `np.dot(trans, rot)`
multiplies the row vector on the left of the matrix, which is the transpose
(inverse) of the claimed rotation. -/
theorem claim6_counterexample :
    rotateShapesWorld 90 (1, 0) = (0, -1) ∧
      specCcwRotation 90 (1, 0) = (0, 1) ∧
      rotateShapesWorld 90 (1, 0) ≠ specCcwRotation 90 (1, 0) ∧
      qpointToPointcloud (Ctx.mk (K := ℝ) 1 0 0 0)
          (rotateShapesPoint (Ctx.mk (K := ℝ) 1 0 0 0) 90 (1, 0)) = (0, -1) := by
  have hθ : radiansOf 90 = Real.pi / 2 := by unfold radiansOf; ring
  have hcos : Real.cos (radiansOf 90) = 0 := by rw [hθ, Real.cos_pi_div_two]
  have hsin : Real.sin (radiansOf 90) = 1 := by rw [hθ, Real.sin_pi_div_two]
  refine ⟨?_, ?_, ?_, ?_⟩
  · simp only [rotateShapesWorld, hcos, hsin]; norm_num
  · simp only [specCcwRotation, hcos, hsin]; norm_num
  · simp only [rotateShapesWorld, specCcwRotation, hcos, hsin]; norm_num
  · simp only [rotateShapesPoint, rotateShapesWorld, qpointToPointcloud,
      pointcloudToQpoint, hcos, hsin]
    norm_num

/-- C6 amended: `rotateShapes(angle)` applies to every vertex's world
coordinates the rotation by minus `radians(angle)` — clockwise-positive, the
transpose of the claimed matrix — because `np.dot(trans, rot)` multiplies the
row vector on the left: the world action equals the spec's
counter-clockwise rotation taken at `-angle`. -/
theorem claim6_rotateShapes_rotates_by_minus_angle (ctx : Ctx ℝ)
    (h : ctx.scale ≠ 0) (angle : ℝ) (p : ℝ × ℝ) :
    qpointToPointcloud ctx (rotateShapesPoint ctx angle p) =
      specCcwRotation (-angle) (qpointToPointcloud ctx p) := by
  unfold rotateShapesPoint
  rw [world_roundtrip ctx h]
  unfold rotateShapesWorld specCcwRotation radiansOf
  dsimp only
  rw [show -angle * Real.pi / 180 = -(angle * Real.pi / 180) by ring,
    Real.cos_neg, Real.sin_neg]
  refine Prod.ext ?_ ?_ <;> dsimp only <;> ring

/-- Witness for C6 amended at cell size 1, angle 37, pixel vertex (2, 3). -/
theorem claim6_rotateShapes_rotates_by_minus_angle_witness :
    (Ctx.mk (K := ℝ) 1 0 0 0).scale ≠ 0 ∧
      qpointToPointcloud (Ctx.mk (K := ℝ) 1 0 0 0)
          (rotateShapesPoint (Ctx.mk (K := ℝ) 1 0 0 0) 37 (2, 3)) =
        specCcwRotation (-37)
          (qpointToPointcloud (Ctx.mk (K := ℝ) 1 0 0 0) (2, 3)) :=
  ⟨by norm_num, claim6_rotateShapes_rotates_by_minus_angle
    (Ctx.mk (K := ℝ) 1 0 0 0) (by norm_num) 37 (2, 3)⟩

/-- Shared helper: a label containing 'rack' is none of the exactly-matched
dispatch labels. -/
theorem hasRack_label_ne (l : String) (h : hasRack l = true) :
    l ≠ "beam" ∧ l ≠ "pole" ∧ l ≠ "wall" ∧ l ≠ "walls" := by
  refine ⟨?_, ?_, ?_, ?_⟩ <;> rintro rfl <;> exact absurd h (by decide)

/-- C10: a newly drawn rack whose box selects no point is rejected without
error: when `in_box_2d` yields an all-false mask, `newShape` returns before
tightening, splitting, or adding the shape, leaving the label list unchanged. -/
theorem claim10_empty_rack_rejected (ctx : Ctx ℚ) (pc : PCOps) (c : ℚ)
    (existing labels : List Shape) (shape : Shape)
    (hl : hasRack shape.label = true)
    (hmask : ∀ b ∈ pc.in_box_2d
      (qpointToPointcloud ctx (shape.points.getD 0 (0, 0)),
       qpointToPointcloud ctx (shape.points.getD 1 (0, 0))), b = false) :
    newShape ctx pc c existing labels shape = labels := by
  obtain ⟨hb, hp, hw, hws⟩ := hasRack_label_ne shape.label hl
  have hcount : (pc.in_box_2d
      (qpointToPointcloud ctx (shape.points.getD 0 (0, 0)),
       qpointToPointcloud ctx (shape.points.getD 1 (0, 0)))).count true = 0 :=
    List.count_eq_zero.mpr (fun mem => by simpa using hmask true mem)
  simp only [newShape]
  rw [if_neg hb, if_neg hp, if_neg (not_or.mpr ⟨hw, hws⟩), if_pos hl, if_pos hcount]

/-- Witness for C10: a 'rack' box over a point cloud where `in_box_2d`
reports no point inside. -/
theorem claim10_empty_rack_rejected_witness :
    hasRack (Shape.mk "rack" [(1, 2), (3, 4)] false).label = true ∧
      (∀ b ∈ (PCOps.mk (fun p _ => p) (fun p _ => p) (fun _ => [false, false])
          (fun b => b)).in_box_2d
        (qpointToPointcloud (Ctx.mk 1 0 0 100)
          ((Shape.mk "rack" [(1, 2), (3, 4)] false).points.getD 0 (0, 0)),
         qpointToPointcloud (Ctx.mk 1 0 0 100)
          ((Shape.mk "rack" [(1, 2), (3, 4)] false).points.getD 1 (0, 0))),
        b = false) ∧
      newShape (Ctx.mk 1 0 0 100)
        (PCOps.mk (fun p _ => p) (fun p _ => p) (fun _ => [false, false])
          (fun b => b)) 5 [] [Shape.mk "wall" [(0, 0), (9, 9)] false]
        (Shape.mk "rack" [(1, 2), (3, 4)] false) =
        [Shape.mk "wall" [(0, 0), (9, 9)] false] :=
  ⟨by decide, by decide,
    claim10_empty_rack_rejected (Ctx.mk 1 0 0 100) _ 5 [] _ _ (by decide) (by decide)⟩

/-- C7 counterexample: an existing beam sits at world (5, 0) and a new 'beam'
is drawn at world (5, -7) (pixel (5, 7) at scale 1, offset (0,0), height 0).
The crosshair test fires (|5 - 5| < 0.3), so the new point snaps to the
intersection — here its own position — and `snap_to_center` (chosen here to
move every point by (+50, +50)) is never consulted: the result differs from
the claimed snap-to-center result [(55, -43)]. -/
theorem claim7_counterexample :
    newShape (Ctx.mk 1 0 0 0)
        (PCOps.mk (fun p _ => (p.1 + 50, p.2 + 50)) (fun p _ => p)
          (fun _ => [true]) (fun b => b)) 5
        [Shape.mk "beam" [(5, 0)] false] []
        (Shape.mk "beam" [(5, 7)] false) =
      [Shape.mk "beam" [(5, 7)] false] ∧
      pointcloudToQpoint (Ctx.mk 1 0 0 0)
        ((PCOps.mk (fun p _ => ((p.1 : ℚ) + 50, p.2 + 50)) (fun p _ => p)
          (fun _ => [true]) (fun b => b)).snap_to_center
          (qpointToPointcloud (Ctx.mk 1 0 0 0) (5, 7)) 0.5) = (55, -43) ∧
      ([Shape.mk "beam" [(5, 7)] false] : List Shape) ≠
        [Shape.mk "beam" [(55, -43)] false] := by
  refine ⟨?_, by norm_num [pointcloudToQpoint, qpointToPointcloud], by decide⟩
  norm_num [newShape, nearestCrosshairIntersection, qpointToPointcloud,
    pointcloudToQpoint, show hasRack "beam" = false from rfl]
  all_goals decide

/-- C7 amended: shape-kind dispatch on a newly created annotation.  A 'pole'
snaps its sole point via `snap_to_center`; a 'beam' first looks for a
crosshair intersection with existing beams (threshold 0.3) and snaps to it
when found, falling back to `snap_to_center` only otherwise; a
'wall'/'walls' snaps every vertex independently via `snap_to_corner`; a label
containing 'rack' snaps no vertex directly — its box is passed to
`tighten_to_rack` (and possibly split), and the tightened corners are stored:
when `isTwoRacks` rejects, the single tightened box; when `isTwoRacks` holds,
the box is split by `splitTwoRacks`, each half re-tightened, and both halves
stored (the second half added first, since `addLabel(shape2)` runs before
`addLabel(shape)`). -/
theorem claim7_dispatch (ctx : Ctx ℚ) (pc : PCOps) (c : ℚ)
    (existing labels : List Shape) (sh : Shape) :
    (sh.label = "pole" →
      newShape ctx pc c existing labels sh = labels ++
        [{ sh with points := sh.points.set 0 (pointcloudToQpoint ctx
            (pc.snap_to_center (qpointToPointcloud ctx (sh.points.getD 0 (0, 0))) 0.5)) }]) ∧
    (sh.label = "beam" →
      (nearestCrosshairIntersection ctx existing (sh.points.getD 0 (0, 0))).2 = false →
      newShape ctx pc c existing labels sh = labels ++
        [{ sh with points := sh.points.set 0 (pointcloudToQpoint ctx
            (pc.snap_to_center (qpointToPointcloud ctx (sh.points.getD 0 (0, 0))) 0.5)) }]) ∧
    (sh.label = "beam" →
      (nearestCrosshairIntersection ctx existing (sh.points.getD 0 (0, 0))).2 = true →
      newShape ctx pc c existing labels sh = labels ++
        [{ sh with points := sh.points.set 0 (pointcloudToQpoint ctx
            (nearestCrosshairIntersection ctx existing (sh.points.getD 0 (0, 0))).1) }]) ∧
    ((sh.label = "wall" ∨ sh.label = "walls") →
      newShape ctx pc c existing labels sh = labels ++
        [{ sh with points := sh.points.map (fun p =>
            pointcloudToQpoint ctx (pc.snap_to_corner (qpointToPointcloud ctx p) 0.5)) }]) ∧
    (hasRack sh.label = true →
      ¬((pc.in_box_2d (qpointToPointcloud ctx (sh.points.getD 0 (0, 0)),
          qpointToPointcloud ctx (sh.points.getD 1 (0, 0)))).count true = 0) →
      isTwoRacks c (pc.tighten_to_rack
        (qpointToPointcloud ctx (sh.points.getD 0 (0, 0)),
         qpointToPointcloud ctx (sh.points.getD 1 (0, 0)))) = false →
      newShape ctx pc c existing labels sh = labels ++
        [{ sh with points := ((sh.points.set 0 (pointcloudToQpoint ctx
            (pc.tighten_to_rack (qpointToPointcloud ctx (sh.points.getD 0 (0, 0)),
              qpointToPointcloud ctx (sh.points.getD 1 (0, 0)))).1)).set 1
            (pointcloudToQpoint ctx (pc.tighten_to_rack
              (qpointToPointcloud ctx (sh.points.getD 0 (0, 0)),
               qpointToPointcloud ctx (sh.points.getD 1 (0, 0)))).2)) }]) ∧
    (hasRack sh.label = true →
      ¬((pc.in_box_2d (qpointToPointcloud ctx (sh.points.getD 0 (0, 0)),
          qpointToPointcloud ctx (sh.points.getD 1 (0, 0)))).count true = 0) →
      isTwoRacks c (pc.tighten_to_rack
        (qpointToPointcloud ctx (sh.points.getD 0 (0, 0)),
         qpointToPointcloud ctx (sh.points.getD 1 (0, 0)))) = true →
      newShape ctx pc c existing labels sh = labels ++
        [{ sh with points := ((sh.points.set 0 (pointcloudToQpoint ctx
            (pc.tighten_to_rack (splitTwoRacks c (pc.tighten_to_rack
              (qpointToPointcloud ctx (sh.points.getD 0 (0, 0)),
               qpointToPointcloud ctx (sh.points.getD 1 (0, 0))))).2).1)).set 1
            (pointcloudToQpoint ctx (pc.tighten_to_rack (splitTwoRacks c
              (pc.tighten_to_rack (qpointToPointcloud ctx (sh.points.getD 0 (0, 0)),
               qpointToPointcloud ctx (sh.points.getD 1 (0, 0))))).2).2)) },
         { sh with points := ((sh.points.set 0 (pointcloudToQpoint ctx
            (pc.tighten_to_rack (splitTwoRacks c (pc.tighten_to_rack
              (qpointToPointcloud ctx (sh.points.getD 0 (0, 0)),
               qpointToPointcloud ctx (sh.points.getD 1 (0, 0))))).1).1)).set 1
            (pointcloudToQpoint ctx (pc.tighten_to_rack (splitTwoRacks c
              (pc.tighten_to_rack (qpointToPointcloud ctx (sh.points.getD 0 (0, 0)),
               qpointToPointcloud ctx (sh.points.getD 1 (0, 0))))).1).2)) }]) := by
  refine ⟨fun h => ?_, fun h hf => ?_, fun h ht => ?_, fun h => ?_,
    fun h h0 h2r => ?_, fun h h0 h2r => ?_⟩
  · simp only [newShape]
    rw [if_neg (show ¬(sh.label = "beam") by simp [h]), if_pos h]
  · simp only [newShape]
    rw [if_pos h, if_neg (show ¬((nearestCrosshairIntersection ctx existing
      (sh.points.getD 0 (0, 0))).2 = true) by rw [hf]; decide)]
    dsimp only
    rw [if_neg (show ¬(sh.label = "pole") by simp [h]),
      if_neg (show ¬(sh.label = "wall" ∨ sh.label = "walls") by simp [h]),
      if_neg (show ¬(hasRack sh.label = true) by rw [h]; decide)]
  · simp only [newShape]
    rw [if_pos h, if_pos ht]
    dsimp only
    rw [if_neg (show ¬(sh.label = "pole") by simp [h]),
      if_neg (show ¬(sh.label = "wall" ∨ sh.label = "walls") by simp [h]),
      if_neg (show ¬(hasRack sh.label = true) by rw [h]; decide)]
  · simp only [newShape]
    rw [if_neg (show ¬(sh.label = "beam") by rcases h with h | h <;> simp [h]),
      if_neg (show ¬(sh.label = "pole") by rcases h with h | h <;> simp [h]),
      if_pos h]
  · obtain ⟨hb, hp, hw, hws⟩ := hasRack_label_ne sh.label h
    simp only [newShape]
    rw [if_neg hb, if_neg hp, if_neg (not_or.mpr ⟨hw, hws⟩), if_pos h,
      if_neg h0, if_neg (show ¬(isTwoRacks c (pc.tighten_to_rack
        (qpointToPointcloud ctx (sh.points.getD 0 (0, 0)),
         qpointToPointcloud ctx (sh.points.getD 1 (0, 0)))) = true) by
          rw [h2r]; decide)]
  · obtain ⟨hb, hp, hw, hws⟩ := hasRack_label_ne sh.label h
    simp only [newShape]
    rw [if_neg hb, if_neg hp, if_neg (not_or.mpr ⟨hw, hws⟩), if_pos h,
      if_neg h0, if_pos h2r]

/-- Witness for C7 amended: a 'pole' at pixel (3, 4) with a centroid snapper
moving points by (+1, +1); cell size 1, offset (0,0), raster height 10. -/
theorem claim7_dispatch_witness :
    (Shape.mk "pole" [(3, 4)] false).label = "pole" ∧
      newShape (Ctx.mk 1 0 0 10)
        (PCOps.mk (fun p _ => (p.1 + 1, p.2 + 1)) (fun p _ => p)
          (fun _ => [true]) (fun b => b)) 5 [] []
        (Shape.mk "pole" [(3, 4)] false) =
        [Shape.mk "pole"
          [pointcloudToQpoint (Ctx.mk 1 0 0 10)
            ((PCOps.mk (fun p _ => ((p.1 : ℚ) + 1, p.2 + 1)) (fun p _ => p)
              (fun _ => [true]) (fun b => b)).snap_to_center
              (qpointToPointcloud (Ctx.mk 1 0 0 10) (3, 4)) 0.5)] false] :=
  ⟨rfl, (claim7_dispatch (Ctx.mk 1 0 0 10) _ 5 [] [] _).1 rfl⟩

/-- C8: with at least one raster slice, any `updatePixmap` call leaves the
slice index in `[0, n)`; asking for the next slice past the last wraps to
slice 0, and asking for the previous slice before slice 0 wraps to the last
slice. -/
theorem claim8_slice_index_invariant (n : ℕ) (idx : ℤ) (h : 1 ≤ n) :
    (0 ≤ updatePixmapIdx n idx ∧ updatePixmapIdx n idx < (n : ℤ)) ∧
      showNextSlice n ((n : ℤ) - 1) = 0 ∧
      showLastSlice n 0 = (n : ℤ) - 1 := by
  unfold showNextSlice showLastSlice updatePixmapIdx
  have hn : ¬ n = 0 := by omega
  rw [if_neg hn, if_neg hn, if_neg hn]
  dsimp only
  split_ifs <;> omega

/-- Witness for C8 at three slices, starting index 7. -/
theorem claim8_slice_index_invariant_witness :
    1 ≤ 3 ∧
      ((0 ≤ updatePixmapIdx 3 7 ∧ updatePixmapIdx 3 7 < (3 : ℤ)) ∧
        showNextSlice 3 ((3 : ℤ) - 1) = 0 ∧
        showLastSlice 3 0 = (3 : ℤ) - 1) :=
  ⟨by decide, claim8_slice_index_invariant 3 7 (by decide)⟩

/-- Shared helper: `beamStep` leaves the list alone when shape `j` is not
labelled 'beam'. -/
theorem beamStep_skip (ctx : Ctx ℚ) (r : ℕ) (xdim ydim xc yc : ℚ)
    (shapes : List Shape) (j : ℕ) (sh : Shape)
    (hj : shapes.get? j = some sh) (hlbl : ¬(sh.label = "beam")) :
    beamStep ctx r xdim ydim xc yc shapes j = shapes := by
  unfold beamStep
  rw [hj]
  cases hr : shapes.get? r with
  | none => rfl
  | some rack =>
    dsimp only
    rw [if_neg hlbl]

/-- Shared helper: `beamStep` when the x-span test and the y-centerline
proximity test both pass — the beam's point is overwritten and
`splitRack(pos, rack)` runs. -/
theorem beamStep_x_hit (ctx : Ctx ℚ) (r : ℕ) (xdim ydim xc yc : ℚ)
    (shapes : List Shape) (j : ℕ) (sh rack : Shape)
    (hj : shapes.get? j = some sh) (hr : shapes.get? r = some rack)
    (hlbl : sh.label = "beam")
    (hx : (rack.points.getD 0 (0, 0)).1 < (sh.points.getD 0 (0, 0)).1 ∧
      (sh.points.getD 0 (0, 0)).1 < (rack.points.getD 1 (0, 0)).1)
    (hy : |yc - (sh.points.getD 0 (0, 0)).2| < ydim / 2 + 2) :
    beamStep ctx r xdim ydim xc yc shapes j =
      splitRackAt ctx ((sh.points.getD 0 (0, 0)).1, yc) r
        (shapes.set j
          { sh with points := sh.points.set 0 ((sh.points.getD 0 (0, 0)).1, yc) }) := by
  unfold beamStep
  rw [hj, hr]
  dsimp only
  rw [if_pos hlbl, if_pos hx, if_pos hy]

/-- Shared helper: `beamStep` when the x-span test passes but the
y-centerline proximity test fails — nothing happens (the `elif` on the y-span
is not even reached). -/
theorem beamStep_x_prox_miss (ctx : Ctx ℚ) (r : ℕ) (xdim ydim xc yc : ℚ)
    (shapes : List Shape) (j : ℕ) (sh rack : Shape)
    (hj : shapes.get? j = some sh) (hr : shapes.get? r = some rack)
    (hlbl : sh.label = "beam")
    (hx : (rack.points.getD 0 (0, 0)).1 < (sh.points.getD 0 (0, 0)).1 ∧
      (sh.points.getD 0 (0, 0)).1 < (rack.points.getD 1 (0, 0)).1)
    (hyn : ¬(|yc - (sh.points.getD 0 (0, 0)).2| < ydim / 2 + 2)) :
    beamStep ctx r xdim ydim xc yc shapes j = shapes := by
  unfold beamStep
  rw [hj, hr]
  dsimp only
  rw [if_pos hlbl, if_pos hx, if_neg hyn]

/-- Shared helper: `beamStep` when the x-span test fails, the y-span test
passes, but the x-centerline proximity test fails — nothing happens. -/
theorem beamStep_y_prox_miss (ctx : Ctx ℚ) (r : ℕ) (xdim ydim xc yc : ℚ)
    (shapes : List Shape) (j : ℕ) (sh rack : Shape)
    (hj : shapes.get? j = some sh) (hr : shapes.get? r = some rack)
    (hlbl : sh.label = "beam")
    (hxn : ¬((rack.points.getD 0 (0, 0)).1 < (sh.points.getD 0 (0, 0)).1 ∧
      (sh.points.getD 0 (0, 0)).1 < (rack.points.getD 1 (0, 0)).1))
    (hy : (rack.points.getD 0 (0, 0)).2 < (sh.points.getD 0 (0, 0)).2 ∧
      (sh.points.getD 0 (0, 0)).2 < (rack.points.getD 1 (0, 0)).2)
    (hpn : ¬(|xc - (sh.points.getD 0 (0, 0)).1| < xdim / 2 + 2)) :
    beamStep ctx r xdim ydim xc yc shapes j = shapes := by
  unfold beamStep
  rw [hj, hr]
  dsimp only
  rw [if_pos hlbl, if_neg hxn, if_pos hy, if_neg hpn]

/-- Shared helper: `beamStep` when both span tests fail — nothing happens. -/
theorem beamStep_no_span (ctx : Ctx ℚ) (r : ℕ) (xdim ydim xc yc : ℚ)
    (shapes : List Shape) (j : ℕ) (sh rack : Shape)
    (hj : shapes.get? j = some sh) (hr : shapes.get? r = some rack)
    (hlbl : sh.label = "beam")
    (hxn : ¬((rack.points.getD 0 (0, 0)).1 < (sh.points.getD 0 (0, 0)).1 ∧
      (sh.points.getD 0 (0, 0)).1 < (rack.points.getD 1 (0, 0)).1))
    (hyn : ¬((rack.points.getD 0 (0, 0)).2 < (sh.points.getD 0 (0, 0)).2 ∧
      (sh.points.getD 0 (0, 0)).2 < (rack.points.getD 1 (0, 0)).2)) :
    beamStep ctx r xdim ydim xc yc shapes j = shapes := by
  unfold beamStep
  rw [hj, hr]
  dsimp only
  rw [if_pos hlbl, if_neg hxn, if_neg hyn]

/-- Shared helper: both halves produced by `splitRackCore` keep the rack's
label (both branches of the long-axis test only touch the points). -/
theorem splitRackCore_label (ctx : Ctx ℚ) (pos : ℚ × ℚ) (rack : Shape) :
    (splitRackCore ctx pos rack).1.label = rack.label ∧
      (splitRackCore ctx pos rack).2.label = rack.label := by
  constructor <;> (unfold splitRackCore; dsimp only; split <;> rfl)

/-- Shared helper: with two racks both matching the same beam (x-span and
proximity tests passing for the first rack against the beam's original
position, and for the second rack against the beam's position after the
first overwrite), `splitRacks` leaves the beam — still at index 2 — on the
SECOND rack's centerline: each later matching rack overwrites the beam's
point again. -/
theorem splitRacks_two_racks_last (ctx : Ctx ℚ)
    (ax0 ay0 ax1 ay1 cx0 cy0 cx1 cy1 bx by' : ℚ) (sel : Bool)
    (hA : ax0 < bx ∧ bx < ax1)
    (hA2 : |(ay0 + ay1) / 2 - by'| < |ay0 - ay1| / 2 + 2)
    (hB : cx0 < bx ∧ bx < cx1)
    (hB2 : |(cy0 + cy1) / 2 - (ay0 + ay1) / 2| < |cy0 - cy1| / 2 + 2) :
    (splitRacks ctx false
        [Shape.mk "rack" [(ax0, ay0), (ax1, ay1)] sel,
         Shape.mk "rack" [(cx0, cy0), (cx1, cy1)] sel,
         Shape.mk "beam" [(bx, by')] sel]).get? 2 =
      some (Shape.mk "beam" [(bx, (cy0 + cy1) / 2)] sel) := by
  have hlbl1 : ¬((splitRackCore ctx (bx, (ay0 + ay1) / 2)
      (Shape.mk "rack" [(ax0, ay0), (ax1, ay1)] sel)).1.label = "beam") := by
    rw [(splitRackCore_label ctx (bx, (ay0 + ay1) / 2)
      (Shape.mk "rack" [(ax0, ay0), (ax1, ay1)] sel)).1]
    exact (by decide : ¬(("rack" : String) = "beam"))
  have hlbl2 : ¬((splitRackCore ctx (bx, (ay0 + ay1) / 2)
      (Shape.mk "rack" [(ax0, ay0), (ax1, ay1)] sel)).2.label = "beam") := by
    rw [(splitRackCore_label ctx (bx, (ay0 + ay1) / 2)
      (Shape.mk "rack" [(ax0, ay0), (ax1, ay1)] sel)).2]
    exact (by decide : ¬(("rack" : String) = "beam"))
  have hx1 := beamStep_x_hit ctx 0 (|ax0 - ax1|) (|ay0 - ay1|)
    ((ax0 + ax1) / 2) ((ay0 + ay1) / 2)
    [Shape.mk "rack" [(ax0, ay0), (ax1, ay1)] sel,
     Shape.mk "rack" [(cx0, cy0), (cx1, cy1)] sel,
     Shape.mk "beam" [(bx, by')] sel] 2
    (Shape.mk "beam" [(bx, by')] sel)
    (Shape.mk "rack" [(ax0, ay0), (ax1, ay1)] sel) rfl rfl rfl hA hA2
  have hskip0 := beamStep_skip ctx 1 (|cx0 - cx1|) (|cy0 - cy1|)
    ((cx0 + cx1) / 2) ((cy0 + cy1) / 2)
    [(splitRackCore ctx (bx, (ay0 + ay1) / 2)
        (Shape.mk "rack" [(ax0, ay0), (ax1, ay1)] sel)).1,
     Shape.mk "rack" [(cx0, cy0), (cx1, cy1)] sel,
     Shape.mk "beam" [(bx, (ay0 + ay1) / 2)] sel,
     (splitRackCore ctx (bx, (ay0 + ay1) / 2)
        (Shape.mk "rack" [(ax0, ay0), (ax1, ay1)] sel)).2] 0
    ((splitRackCore ctx (bx, (ay0 + ay1) / 2)
        (Shape.mk "rack" [(ax0, ay0), (ax1, ay1)] sel)).1) rfl hlbl1
  have hx2 := beamStep_x_hit ctx 1 (|cx0 - cx1|) (|cy0 - cy1|)
    ((cx0 + cx1) / 2) ((cy0 + cy1) / 2)
    [(splitRackCore ctx (bx, (ay0 + ay1) / 2)
        (Shape.mk "rack" [(ax0, ay0), (ax1, ay1)] sel)).1,
     Shape.mk "rack" [(cx0, cy0), (cx1, cy1)] sel,
     Shape.mk "beam" [(bx, (ay0 + ay1) / 2)] sel,
     (splitRackCore ctx (bx, (ay0 + ay1) / 2)
        (Shape.mk "rack" [(ax0, ay0), (ax1, ay1)] sel)).2] 2
    (Shape.mk "beam" [(bx, (ay0 + ay1) / 2)] sel)
    (Shape.mk "rack" [(cx0, cy0), (cx1, cy1)] sel) rfl rfl rfl hB hB2
  have hskip3 := beamStep_skip ctx 1 (|cx0 - cx1|) (|cy0 - cy1|)
    ((cx0 + cx1) / 2) ((cy0 + cy1) / 2)
    [(splitRackCore ctx (bx, (ay0 + ay1) / 2)
        (Shape.mk "rack" [(ax0, ay0), (ax1, ay1)] sel)).1,
     (splitRackCore ctx (bx, (cy0 + cy1) / 2)
        (Shape.mk "rack" [(cx0, cy0), (cx1, cy1)] sel)).1,
     Shape.mk "beam" [(bx, (cy0 + cy1) / 2)] sel,
     (splitRackCore ctx (bx, (ay0 + ay1) / 2)
        (Shape.mk "rack" [(ax0, ay0), (ax1, ay1)] sel)).2,
     (splitRackCore ctx (bx, (cy0 + cy1) / 2)
        (Shape.mk "rack" [(cx0, cy0), (cx1, cy1)] sel)).2] 3
    ((splitRackCore ctx (bx, (ay0 + ay1) / 2)
        (Shape.mk "rack" [(ax0, ay0), (ax1, ay1)] sel)).2) rfl hlbl2
  calc (splitRacks ctx false
        [Shape.mk "rack" [(ax0, ay0), (ax1, ay1)] sel,
         Shape.mk "rack" [(cx0, cy0), (cx1, cy1)] sel,
         Shape.mk "beam" [(bx, by')] sel]).get? 2
      = (outerLoop ctx [1] (beamStep ctx 0 (|ax0 - ax1|) (|ay0 - ay1|)
          ((ax0 + ax1) / 2) ((ay0 + ay1) / 2)
          [Shape.mk "rack" [(ax0, ay0), (ax1, ay1)] sel,
           Shape.mk "rack" [(cx0, cy0), (cx1, cy1)] sel,
           Shape.mk "beam" [(bx, by')] sel] 2)).get? 2 := rfl
    _ = (outerLoop ctx [1] (splitRackAt ctx (bx, (ay0 + ay1) / 2) 0
          [Shape.mk "rack" [(ax0, ay0), (ax1, ay1)] sel,
           Shape.mk "rack" [(cx0, cy0), (cx1, cy1)] sel,
           Shape.mk "beam" [(bx, (ay0 + ay1) / 2)] sel])).get? 2 := by
        rw [hx1]; rfl
    _ = (innerLoop ctx 1 (|cx0 - cx1|) (|cy0 - cy1|) ((cx0 + cx1) / 2)
          ((cy0 + cy1) / 2) [1, 2, 3]
          (beamStep ctx 1 (|cx0 - cx1|) (|cy0 - cy1|) ((cx0 + cx1) / 2)
            ((cy0 + cy1) / 2)
            [(splitRackCore ctx (bx, (ay0 + ay1) / 2)
                (Shape.mk "rack" [(ax0, ay0), (ax1, ay1)] sel)).1,
             Shape.mk "rack" [(cx0, cy0), (cx1, cy1)] sel,
             Shape.mk "beam" [(bx, (ay0 + ay1) / 2)] sel,
             (splitRackCore ctx (bx, (ay0 + ay1) / 2)
                (Shape.mk "rack" [(ax0, ay0), (ax1, ay1)] sel)).2] 0)).get? 2 := rfl
    _ = (innerLoop ctx 1 (|cx0 - cx1|) (|cy0 - cy1|) ((cx0 + cx1) / 2)
          ((cy0 + cy1) / 2) [3]
          (beamStep ctx 1 (|cx0 - cx1|) (|cy0 - cy1|) ((cx0 + cx1) / 2)
            ((cy0 + cy1) / 2)
            [(splitRackCore ctx (bx, (ay0 + ay1) / 2)
                (Shape.mk "rack" [(ax0, ay0), (ax1, ay1)] sel)).1,
             Shape.mk "rack" [(cx0, cy0), (cx1, cy1)] sel,
             Shape.mk "beam" [(bx, (ay0 + ay1) / 2)] sel,
             (splitRackCore ctx (bx, (ay0 + ay1) / 2)
                (Shape.mk "rack" [(ax0, ay0), (ax1, ay1)] sel)).2] 2)).get? 2 := by
        rw [hskip0]; rfl
    _ = (innerLoop ctx 1 (|cx0 - cx1|) (|cy0 - cy1|) ((cx0 + cx1) / 2)
          ((cy0 + cy1) / 2) [3]
          (splitRackAt ctx (bx, (cy0 + cy1) / 2) 1
            [(splitRackCore ctx (bx, (ay0 + ay1) / 2)
                (Shape.mk "rack" [(ax0, ay0), (ax1, ay1)] sel)).1,
             Shape.mk "rack" [(cx0, cy0), (cx1, cy1)] sel,
             Shape.mk "beam" [(bx, (cy0 + cy1) / 2)] sel,
             (splitRackCore ctx (bx, (ay0 + ay1) / 2)
                (Shape.mk "rack" [(ax0, ay0), (ax1, ay1)] sel)).2])).get? 2 := by
        rw [hx2]; rfl
    _ = (beamStep ctx 1 (|cx0 - cx1|) (|cy0 - cy1|) ((cx0 + cx1) / 2)
          ((cy0 + cy1) / 2)
          [(splitRackCore ctx (bx, (ay0 + ay1) / 2)
              (Shape.mk "rack" [(ax0, ay0), (ax1, ay1)] sel)).1,
           (splitRackCore ctx (bx, (cy0 + cy1) / 2)
              (Shape.mk "rack" [(cx0, cy0), (cx1, cy1)] sel)).1,
           Shape.mk "beam" [(bx, (cy0 + cy1) / 2)] sel,
           (splitRackCore ctx (bx, (ay0 + ay1) / 2)
              (Shape.mk "rack" [(ax0, ay0), (ax1, ay1)] sel)).2,
           (splitRackCore ctx (bx, (cy0 + cy1) / 2)
              (Shape.mk "rack" [(cx0, cy0), (cx1, cy1)] sel)).2] 3).get? 2 := rfl
    _ = ([(splitRackCore ctx (bx, (ay0 + ay1) / 2)
              (Shape.mk "rack" [(ax0, ay0), (ax1, ay1)] sel)).1,
           (splitRackCore ctx (bx, (cy0 + cy1) / 2)
              (Shape.mk "rack" [(cx0, cy0), (cx1, cy1)] sel)).1,
           Shape.mk "beam" [(bx, (cy0 + cy1) / 2)] sel,
           (splitRackCore ctx (bx, (ay0 + ay1) / 2)
              (Shape.mk "rack" [(ax0, ay0), (ax1, ay1)] sel)).2,
           (splitRackCore ctx (bx, (cy0 + cy1) / 2)
              (Shape.mk "rack" [(cx0, cy0), (cx1, cy1)] sel)).2] :
          List Shape).get? 2 := by rw [hskip3]
    _ = some (Shape.mk "beam" [(bx, (cy0 + cy1) / 2)] sel) := rfl

/-- C9 counterexample: two racks (0,0)-(10,4) and (0,0)-(10,8) and one beam
at (5,3).  The pair (first rack, beam) satisfies the proximity test — the
first two conjuncts are exactly the code's tests for that rack (x strictly
inside [0,10], |2 - 3| = 1 < 4/2 + 2) — yet after `splitRacks` returns the
beam sits at y = 4, the SECOND rack's centerline, and not at y = 2, the
first rack's centerline: the second matching rack's `pos.setY(y_c)`
overwrites the first's, refuting the claim's universally quantified "the
beam annotation itself has moved onto the rack centerline". -/
theorem claim9_counterexample :
    ((0 : ℚ) < 5 ∧ (5 : ℚ) < 10) ∧
      |((0 : ℚ) + 4) / 2 - 3| < |(0 : ℚ) - 4| / 2 + 2 ∧
      (splitRacks (Ctx.mk 1 0 0 100) false
          [Shape.mk "rack" [(0, 0), (10, 4)] false,
           Shape.mk "rack" [(0, 0), (10, 8)] false,
           Shape.mk "beam" [(5, 3)] false]).get? 2 =
        some (Shape.mk "beam" [(5, 4)] false) ∧
      ¬((splitRacks (Ctx.mk 1 0 0 100) false
          [Shape.mk "rack" [(0, 0), (10, 4)] false,
           Shape.mk "rack" [(0, 0), (10, 8)] false,
           Shape.mk "beam" [(5, 3)] false]).get? 2 =
        some (Shape.mk "beam" [(5, 2)] false)) := by
  have h := splitRacks_two_racks_last (Ctx.mk 1 0 0 100) 0 0 10 4 0 0 10 8 5 3
    false (by norm_num) (by norm_num) (by norm_num) (by norm_num)
  refine ⟨⟨by norm_num, by norm_num⟩, by norm_num, ?_, ?_⟩
  · rw [h]
    norm_num
  · rw [h]
    norm_num

/-- C9 amended: `splitRacks` overwrites the matched beam annotation in place.
For a rack/beam pair passing the proximity test (beam x strictly inside the
rack's x-span, beam y within `ydim/2 + 2` of the rack's y-centerline), `pos =
shape.points[0]` aliases the beam's own point object and `pos.setY(y_c)`
overwrites its transverse coordinate with that rack's centerline — but each
later matching rack overwrites it again, so after `splitRacks` returns the
beam rests on the LAST matching rack's centerline (exhibited for two racks),
not necessarily on every matching rack's.  A beam failing a rack's tests —
outside both spans, or inside a span but beyond the centerline-distance
bound — is left unchanged. -/
theorem claim9_splitRacks_moves_beam (ctx : Ctx ℚ)
    (rx0 ry0 rx1 ry1 bx by' : ℚ) (sel : Bool) :
    (rx0 < bx ∧ bx < rx1 →
      |(ry0 + ry1) / 2 - by'| < |ry0 - ry1| / 2 + 2 →
      (splitRacks ctx false
          [Shape.mk "rack" [(rx0, ry0), (rx1, ry1)] sel,
           Shape.mk "beam" [(bx, by')] sel]).get? 1 =
        some (Shape.mk "beam" [(bx, (ry0 + ry1) / 2)] sel)) ∧
    (rx0 < bx ∧ bx < rx1 →
      ¬(|(ry0 + ry1) / 2 - by'| < |ry0 - ry1| / 2 + 2) →
      splitRacks ctx false
          [Shape.mk "rack" [(rx0, ry0), (rx1, ry1)] sel,
           Shape.mk "beam" [(bx, by')] sel] =
        [Shape.mk "rack" [(rx0, ry0), (rx1, ry1)] sel,
         Shape.mk "beam" [(bx, by')] sel]) ∧
    (¬(rx0 < bx ∧ bx < rx1) → ry0 < by' ∧ by' < ry1 →
      ¬(|(rx0 + rx1) / 2 - bx| < |rx0 - rx1| / 2 + 2) →
      splitRacks ctx false
          [Shape.mk "rack" [(rx0, ry0), (rx1, ry1)] sel,
           Shape.mk "beam" [(bx, by')] sel] =
        [Shape.mk "rack" [(rx0, ry0), (rx1, ry1)] sel,
         Shape.mk "beam" [(bx, by')] sel]) ∧
    (¬(rx0 < bx ∧ bx < rx1) → ¬(ry0 < by' ∧ by' < ry1) →
      splitRacks ctx false
          [Shape.mk "rack" [(rx0, ry0), (rx1, ry1)] sel,
           Shape.mk "beam" [(bx, by')] sel] =
        [Shape.mk "rack" [(rx0, ry0), (rx1, ry1)] sel,
         Shape.mk "beam" [(bx, by')] sel]) ∧
    (∀ cx0 cy0 cx1 cy1 : ℚ,
      rx0 < bx ∧ bx < rx1 →
      |(ry0 + ry1) / 2 - by'| < |ry0 - ry1| / 2 + 2 →
      cx0 < bx ∧ bx < cx1 →
      |(cy0 + cy1) / 2 - (ry0 + ry1) / 2| < |cy0 - cy1| / 2 + 2 →
      (splitRacks ctx false
          [Shape.mk "rack" [(rx0, ry0), (rx1, ry1)] sel,
           Shape.mk "rack" [(cx0, cy0), (cx1, cy1)] sel,
           Shape.mk "beam" [(bx, by')] sel]).get? 2 =
        some (Shape.mk "beam" [(bx, (cy0 + cy1) / 2)] sel)) := by
  have e0 : splitRacks ctx false
      [Shape.mk "rack" [(rx0, ry0), (rx1, ry1)] sel,
       Shape.mk "beam" [(bx, by')] sel] =
      beamStep ctx 0 (|rx0 - rx1|) (|ry0 - ry1|) ((rx0 + rx1) / 2)
        ((ry0 + ry1) / 2)
        [Shape.mk "rack" [(rx0, ry0), (rx1, ry1)] sel,
         Shape.mk "beam" [(bx, by')] sel] 1 := rfl
  refine ⟨fun h1 h2 => ?_, fun h1 h2 => ?_, fun h1 h2 h3 => ?_,
    fun h1 h2 => ?_,
    fun cx0 cy0 cx1 cy1 hA hA2 hB hB2 => splitRacks_two_racks_last ctx
      rx0 ry0 rx1 ry1 cx0 cy0 cx1 cy1 bx by' sel hA hA2 hB hB2⟩
  · rw [e0, beamStep_x_hit ctx 0 (|rx0 - rx1|) (|ry0 - ry1|)
      ((rx0 + rx1) / 2) ((ry0 + ry1) / 2)
      [Shape.mk "rack" [(rx0, ry0), (rx1, ry1)] sel,
       Shape.mk "beam" [(bx, by')] sel] 1
      (Shape.mk "beam" [(bx, by')] sel)
      (Shape.mk "rack" [(rx0, ry0), (rx1, ry1)] sel) rfl rfl rfl h1 h2]
    rfl
  · rw [e0, beamStep_x_prox_miss ctx 0 (|rx0 - rx1|) (|ry0 - ry1|)
      ((rx0 + rx1) / 2) ((ry0 + ry1) / 2)
      [Shape.mk "rack" [(rx0, ry0), (rx1, ry1)] sel,
       Shape.mk "beam" [(bx, by')] sel] 1
      (Shape.mk "beam" [(bx, by')] sel)
      (Shape.mk "rack" [(rx0, ry0), (rx1, ry1)] sel) rfl rfl rfl h1 h2]
  · rw [e0, beamStep_y_prox_miss ctx 0 (|rx0 - rx1|) (|ry0 - ry1|)
      ((rx0 + rx1) / 2) ((ry0 + ry1) / 2)
      [Shape.mk "rack" [(rx0, ry0), (rx1, ry1)] sel,
       Shape.mk "beam" [(bx, by')] sel] 1
      (Shape.mk "beam" [(bx, by')] sel)
      (Shape.mk "rack" [(rx0, ry0), (rx1, ry1)] sel) rfl rfl rfl h1 h2 h3]
  · rw [e0, beamStep_no_span ctx 0 (|rx0 - rx1|) (|ry0 - ry1|)
      ((rx0 + rx1) / 2) ((ry0 + ry1) / 2)
      [Shape.mk "rack" [(rx0, ry0), (rx1, ry1)] sel,
       Shape.mk "beam" [(bx, by')] sel] 1
      (Shape.mk "beam" [(bx, by')] sel)
      (Shape.mk "rack" [(rx0, ry0), (rx1, ry1)] sel) rfl rfl rfl h1 h2]

/-- Witness for C9 amended: rack (0,0)-(10,4) with a beam at (5,3) ends at
(5,2) on the centerline; a beam at (5,30) is inside the x-span but beyond
the centerline bound and stays put; a beam at (50,30) is outside both spans
and stays put; with a second rack (0,0)-(10,8) the beam at (5,3) ends at
(5,4), the last matching rack's centerline. -/
theorem claim9_splitRacks_moves_beam_witness :
    (splitRacks (Ctx.mk 1 0 0 100) false
        [Shape.mk "rack" [(0, 0), (10, 4)] false,
         Shape.mk "beam" [(5, 3)] false]).get? 1 =
      some (Shape.mk "beam" [(5, 2)] false) ∧
      splitRacks (Ctx.mk 1 0 0 100) false
          [Shape.mk "rack" [(0, 0), (10, 4)] false,
           Shape.mk "beam" [(5, 30)] false] =
        [Shape.mk "rack" [(0, 0), (10, 4)] false,
         Shape.mk "beam" [(5, 30)] false] ∧
      splitRacks (Ctx.mk 1 0 0 100) false
          [Shape.mk "rack" [(0, 0), (10, 4)] false,
           Shape.mk "beam" [(50, 30)] false] =
        [Shape.mk "rack" [(0, 0), (10, 4)] false,
         Shape.mk "beam" [(50, 30)] false] ∧
      (splitRacks (Ctx.mk 1 0 0 100) false
          [Shape.mk "rack" [(0, 0), (10, 4)] false,
           Shape.mk "rack" [(0, 0), (10, 8)] false,
           Shape.mk "beam" [(5, 3)] false]).get? 2 =
        some (Shape.mk "beam" [(5, 4)] false) := by
  refine ⟨?_, ?_, ?_, ?_⟩
  · have h := (claim9_splitRacks_moves_beam (Ctx.mk 1 0 0 100)
      0 0 10 4 5 3 false).1 (by norm_num) (by norm_num)
    rw [h]
    norm_num
  · exact (claim9_splitRacks_moves_beam (Ctx.mk 1 0 0 100)
      0 0 10 4 5 30 false).2.1 (by norm_num) (by norm_num)
  · exact (claim9_splitRacks_moves_beam (Ctx.mk 1 0 0 100)
      0 0 10 4 50 30 false).2.2.2.1 (by norm_num) (by norm_num)
  · have h := (claim9_splitRacks_moves_beam (Ctx.mk 1 0 0 100)
      0 0 10 4 5 3 false).2.2.2.2 0 0 10 8
      (by norm_num) (by norm_num) (by norm_num) (by norm_num)
    rw [h]
    norm_num

end LabelPC
